import Mathlib

/-! # code-runner: the execution engine and the sandbox bootstrapper

A shallow embedding of

* `internal/executable/executable.go` : `NewExecutable`, `executableState.Run`,
  `checkLoggerFile`;
* `pkg/executable_container/setup.go` : `setupInternalContainer`, `changeHostName`,
  `changeRoot`, `mountProc`, `mountSys`, `must`.

Go strings are byte sequences, so they are lists of bytes here and the slice
`s[20:]` is a bounds-checked `drop 20`.  Everything the Go code does to the outside
world (files, the host log stream, the adapter, the spawned process, system calls)
is made explicit: the file system is a map from paths to files that is passed along,
and every externally visible action is appended to an event list.
-/

namespace CodeRunner

/-! ## Go strings -/

/-- One byte of a Go string. -/
abbrev Byte := Fin 256

/-- A Go `string`: an immutable sequence of bytes. -/
abbrev GoString := List Byte

/-- The bytes of an ASCII literal of the source text. -/
def lit (s : String) : GoString :=
  s.data.map fun c => Fin.ofNat c.toNat

/-! ## Data model of package `executable` -/

/-- Modelled from the spec: the declaration of the record `FileSettings` is not in the
sources at hand.  `Run` reads only the field `FileNamePrefix`; the language-specific
options "merged in when any field is unset" are kept as uninterpreted key/value
pairs. -/
structure FileSettings where
  FileNamePrefix : GoString
  options : List (GoString × GoString)
deriving DecidableEq, Repr

/-- Modelled from the spec: the four error kinds of the taxonomy.  Their struct
declarations are not in the sources at hand; the fields are the ones the composite
literals of `executable.go` set (`lang`, `errMessage`, `maxTime`). -/
inductive RunError where
  | UnsupportedLanguageError (lang : GoString)
  | CompilationError (errMessage : GoString)
  | TimeLimitExceededError (maxTime : Nat)
  | RuntimeError (errMessage : GoString)
deriving DecidableEq, Repr

/-- The error value of `ioutil.ReadFile`: its text and what `os.IsExist` answers on it. -/
structure ReadError where
  text : GoString
  isExist : Bool
deriving DecidableEq, Repr

/-- A file on disk.  `content` is what `ioutil.ReadFile` gets out of it, `readErr` is the
error a read of it ends with (if any), `removable` says whether `os.Remove` succeeds on
it. -/
structure Node where
  content : GoString
  readErr : Option ReadError
  removable : Bool
deriving DecidableEq, Repr

/-- The file system: which paths exist, and what is there. -/
abbrev FS := GoString → Option Node

/-- A path exists in a file system. -/
def FS.present (fs : FS) (path : GoString) : Bool :=
  (fs path).isSome

/-- Whether `os.Remove` would succeed on this path (or there is nothing to remove). -/
def FS.canRemove (fs : FS) (path : GoString) : Bool :=
  match fs path with
  | none => true
  | some n => n.removable

/-- What an adapter (`createFile`) hands back: the command, the artifact location, the
error (`none` is Go's `nil`), and the file system as the adapter left it. -/
structure AdapterResult where
  sysCommand : GoString
  fileLocation : GoString
  err : Option GoString
  fs : FS

/-- The type of the file-creation functions, `func(code, settings) (string, string, error)`,
with the file system it works on made explicit. -/
abbrev CreateFile := GoString → FileSettings → FS → AdapterResult

/-- What is observed once `cmd.Run()` has returned: whether `ctx.Err()` is
`context.DeadlineExceeded`, the error of `cmd.Run()` (`none` is `nil`), the two capture
buffers, and the file system as the process left it. -/
structure ProcessOutcome where
  deadlineExceeded : Bool
  err : Option GoString
  stdOut : GoString
  stdErr : GoString
  fs : FS

/-- The isolation profile put into `cmd.SysProcAttr`. -/
structure SysProcAttr where
  cloneNamespaces : List String
  uidMappings : List (Nat × Nat × Nat)
  gidMappings : List (Nat × Nat × Nat)
deriving DecidableEq, Repr

/-- Externally visible actions of the engine, in the order they happen. -/
inductive Event where
  | adapterInvoked (code : GoString) (settings : FileSettings)
  | logPrintln (text : GoString)
  | logPrintlnError (e : RunError)
  | withTimeout (seconds : Nat)
  | cmdRun (name : GoString) (args : List GoString) (attr : SysProcAttr)
  | readFile (path : GoString)
  | remove (path : GoString)
  | cancel
deriving DecidableEq, Repr

/-- The state of the host: the file system and the actions performed so far. -/
structure World where
  fs : FS
  events : List Event

/-- Record an action. -/
def World.emit (w : World) (e : Event) : World :=
  { w with events := w.events ++ [e] }

/-- What the engine needs from outside the two source files: the settings resolver and
the adapter registry (functions of this package declared in other files), the ids of the
invoking user, and the behaviour of the spawned `executable_container` process.  The
resolver returns a record rather than a pointer that may be `nil`: `Run` dereferences its
result without a check (`state.settings.FileNamePrefix`). -/
structure Env where
  fillRestOfFileSettings : GoString → Option FileSettings → FileSettings
  getFileCreationFunction : GoString → Option CreateFile
  getuid : Nat
  getgid : Nat
  cmdRun : GoString → List GoString → SysProcAttr → FS → ProcessOutcome

/-- The struct `executableState`; `settings` is a pointer and may be `nil`. -/
structure executableState where
  code : GoString
  lang : GoString
  settings : Option FileSettings
  createFile : CreateFile

/-- How a call of `Run` ends: it returns `(output, error)`, or the Go runtime aborts it
with "slice bounds out of range [lo:len]". -/
inductive Completion where
  | returned (output : GoString) (err : Option RunError)
  | sliceOutOfRange (lo len : Nat)
deriving DecidableEq, Repr

/-- The result of running `Run`: how it ended, the host afterwards, and the receiver
(whose `settings` field `Run` overwrites). -/
structure RunResult where
  completion : Completion
  world : World
  state : executableState

/-! ## `os` and `ioutil` -/

/-- What `os.Remove(path)` does to the file system: the file goes away if it is there and
can be removed; nothing else changes. -/
def FS.remove (fs : FS) (path : GoString) : FS :=
  match fs path with
  | none => fs
  | some n => if n.removable then fun p => if p = path then none else fs p else fs

/-- The call `os.Remove(path)` with the returned error dropped, as every call in the source does. -/
def osRemove (path : GoString) (w : World) : World :=
  { fs := w.fs.remove path, events := w.events ++ [.remove path] }

/-- The call `ioutil.ReadFile(path)`: the content (`none` is a `nil` slice) and the error.
If the file cannot be opened the slice is `nil`; once it is open the slice is never `nil`,
and a failing read returns the bytes read so far together with the error. -/
def ioutilReadFile (fs : FS) (path : GoString) : Option GoString × Option ReadError :=
  match fs path with
  | none => (none, some ⟨lit "no such file or directory", false⟩)
  | some n =>
    match n.readErr with
    | none => (some n.content, none)
    | some e => (some n.content, some e)

/-! ## `executable.go` -/

/-- The function `NewExecutable(lang, code, settings)`: the executable or the error, and the host
afterwards. -/
def NewExecutable (env : Env) (lang code : GoString) (settings : Option FileSettings)
    (w : World) : (Option executableState × Option RunError) × World :=
  match env.getFileCreationFunction lang with
  | some function =>
    ((some { code := code, lang := lang, settings := settings, createFile := function },
      none), w)
  | none => ((none, some (.UnsupportedLanguageError lang)), w)

/-- The path `checkLoggerFile` builds with its `strings.Builder`. -/
def loggerFileLoc (fileNamePrefix : GoString) : GoString :=
  lit "/securefs/serverOutput/" ++ fileNamePrefix ++ lit ".log"

/-- The function `checkLoggerFile(fileNamePrefix)`. -/
def checkLoggerFile (fileNamePrefix : GoString) (w : World) : World :=
  let fileLoc := loggerFileLoc fileNamePrefix
  let w := w.emit (.readFile fileLoc)
  let r := ioutilReadFile w.fs fileLoc
  let output := r.1
  let err := r.2
  let w :=
    match err with
    | some e =>
      if e.isExist then
        (w.emit (.logPrintln (lit "Could not open the logger file but it does exists."))).emit
          (.logPrintln e.text)
      else w
    | none => w
  let w :=
    match output with
    | some out => w.emit (.logPrintln out)
    | none => w
  osRemove fileLoc w

/-- The isolation profile `Run` builds: six namespaces and one id mapping each for user
and group, container id 0 to the invoking host id, size 1. -/
def sysProcAttr (env : Env) : SysProcAttr :=
  { cloneNamespaces :=
      ["CLONE_NEWNS", "CLONE_NEWUTS", "CLONE_NEWIPC", "CLONE_NEWPID", "CLONE_NEWNET",
        "CLONE_NEWUSER"]
    uidMappings := [(0, env.getuid, 1)]
    gidMappings := [(0, env.getgid, 1)] }

/-- The method `(state *executableState).Run()`.  The two `defer`s registered after the adapter
succeeded (`os.Remove(fileLocation)`, then `cancel()`) run in reverse order on every way
out of the rest of the body, the abort included. -/
def Run (env : Env) (state : executableState) (w : World) : RunResult :=
  let settings := env.fillRestOfFileSettings state.lang state.settings
  let state := { state with settings := some settings }
  let w := w.emit (.adapterInvoked state.code settings)
  let a := state.createFile state.code settings w.fs
  let w := { w with fs := a.fs }
  match a.err with
  | some e =>
    let w := w.emit (.logPrintln e)
    { completion := .returned [] (some (.CompilationError e)), world := w, state := state }
  | none =>
    let deferred := fun (w : World) => osRemove a.fileLocation (w.emit .cancel)
    let timeoutInSeconds := 15
    let w := w.emit (.withTimeout timeoutInSeconds)
    let name := lit "executable_container"
    let args := [a.sysCommand, a.fileLocation, settings.FileNamePrefix]
    let attr := sysProcAttr env
    let w := w.emit (.cmdRun name args attr)
    let o := env.cmdRun name args attr w.fs
    let w := { w with fs := o.fs }
    let w := checkLoggerFile settings.FileNamePrefix w
    if o.deadlineExceeded then
      let err := RunError.TimeLimitExceededError timeoutInSeconds
      let w := w.emit (.logPrintlnError err)
      { completion := .returned o.stdOut (some err), world := deferred w, state := state }
    else
      match o.err with
      | some e =>
        let w := w.emit (.logPrintln e)
        { completion := .returned [] (some (.RuntimeError e)), world := deferred w,
          state := state }
      | none =>
        if o.stdErr.length ≠ 0 then
          let sizeOfDateTiemStamp := 20
          if o.stdErr.length < sizeOfDateTiemStamp then
            { completion := .sliceOutOfRange sizeOfDateTiemStamp o.stdErr.length,
              world := deferred w, state := state }
          else
            let errorMessage := o.stdErr.drop sizeOfDateTiemStamp
            { completion := .returned o.stdOut (some (.RuntimeError errorMessage)),
              world := deferred w, state := state }
        else
          { completion := .returned o.stdOut none, world := deferred w, state := state }

/-- The settings `Run` works with (line 41). -/
def resolvedSettings (env : Env) (state : executableState) : FileSettings :=
  env.fillRestOfFileSettings state.lang state.settings

/-- What the adapter answers when `Run` calls it (line 45). -/
def adapterResult (env : Env) (state : executableState) (w : World) : AdapterResult :=
  state.createFile state.code (resolvedSettings env state) w.fs

/-- What `Run` observes of the process it starts (lines 61 to 98), given that the adapter
succeeded. -/
def processOutcome (env : Env) (state : executableState) (w : World) : ProcessOutcome :=
  env.cmdRun (lit "executable_container")
    [(adapterResult env state w).sysCommand, (adapterResult env state w).fileLocation,
      (resolvedSettings env state).FileNamePrefix]
    (sysProcAttr env) (adapterResult env state w).fs

/-! ## `setup.go`: the sandbox bootstrapper -/

/-- The system calls the bootstrapper makes, with their arguments. -/
inductive Syscall where
  | mkdirAll (path : GoString) (perm : Nat)
  | mount (source target fstype : GoString) (flags : Nat) (data : GoString)
  | sethostname (name : GoString)
  | chroot (path : GoString)
  | chdir (dir : GoString)
deriving DecidableEq, Repr

/-- The operating system as the bootstrapper sees it: a state, the answer (`none` is a
`nil` error) and new state for each call, and the library function `filepath.Join`. -/
structure Sys (K : Type) where
  exec : Syscall → K → Option GoString × K
  filepathJoin : GoString → GoString → GoString

/-- The state of the bootstrapping process: the operating system, every call attempted
so far with its answer, and what was written to the log. -/
structure BootState (K : Type) where
  kernel : K
  trace : List (Syscall × Option GoString)
  log : List GoString

/-- The state a freshly spawned process starts in. -/
def BootState.init {K : Type} (k : K) : BootState K :=
  { kernel := k, trace := [], log := [] }

/-- A step of the bootstrapper either goes on, or the process has exited with a status
(`log.Fatal` ends in `os.Exit(1)`). -/
inductive Boot (K : Type) where
  | running (s : BootState K)
  | exited (status : Nat) (s : BootState K)

/-- The state a step ended in. -/
def Boot.state {K : Type} : Boot K → BootState K
  | .running s => s
  | .exited _ s => s

/-- The exit status, if the process has exited. -/
def Boot.exitStatus {K : Type} : Boot K → Option Nat
  | .running _ => none
  | .exited c _ => some c

/-- Sequencing: the next statement runs only if the process is still alive. -/
def Boot.andThen {K : Type} (b : Boot K) (next : BootState K → Boot K) : Boot K :=
  match b with
  | .running s => next s
  | .exited c s => .exited c s

/-- Perform one system call and record it with its answer. -/
def Sys.call {K : Type} (sys : Sys K) (c : Syscall) (s : BootState K) :
    Option GoString × BootState K :=
  let r := sys.exec c s.kernel
  (r.1, { s with kernel := r.2, trace := s.trace ++ [(c, r.1)] })

/-- The function `must(err)`: `log.Fatal(err)` when the error is not `nil`. -/
def must {K : Type} (err : Option GoString) (s : BootState K) : Boot K :=
  match err with
  | some e => .exited 1 { s with log := s.log ++ [e] }
  | none => .running s

/-- The function `changeHostName(name)`. -/
def changeHostName {K : Type} (sys : Sys K) (name : GoString) (s : BootState K) : Boot K :=
  let r := sys.call (.sethostname name) s
  must r.1 r.2

/-- The function `changeRoot(newRoot)`. -/
def changeRoot {K : Type} (sys : Sys K) (newRoot : GoString) (s : BootState K) : Boot K :=
  let r := sys.call (.chroot newRoot) s
  (must r.1 r.2).andThen fun s =>
  let r := sys.call (.chdir (lit "/")) s
  must r.1 r.2

/-- The function `mountProc(newRoot)`. -/
def mountProc {K : Type} (sys : Sys K) (newRoot : GoString) (s : BootState K) : Boot K :=
  let source := lit "proc"
  let fstype := lit "proc"
  let target := sys.filepathJoin newRoot (lit "/proc")
  let flags := 0
  let data := lit ""
  let r := sys.call (.mkdirAll target 0o755) s
  (must r.1 r.2).andThen fun s =>
  let r := sys.call (.mount source target fstype flags data) s
  must r.1 r.2

/-- The function `mountSys(rootLocation)`: the result of `os.MkdirAll` is dropped. -/
def mountSys {K : Type} (sys : Sys K) (rootLocation : GoString) (s : BootState K) : Boot K :=
  let source := lit "sysfs"
  let target := sys.filepathJoin rootLocation (lit "/sys")
  let fstype := lit "sysfs"
  let flags := 0
  let data := lit ""
  let r := sys.call (.mkdirAll target 0o755) s
  let s := r.2
  let r := sys.call (.mount source target fstype flags data) s
  must r.1 r.2

/-- The struct `configSettings`. -/
structure configSettings where
  hostname : GoString
  rootLoc : GoString
deriving DecidableEq, Repr

/-- The method `(cs *configSettings).setupInternalContainer()`. -/
def setupInternalContainer {K : Type} (sys : Sys K) (cs : configSettings)
    (s : BootState K) : Boot K :=
  (mountProc sys cs.rootLoc s).andThen fun s =>
  (mountSys sys cs.rootLoc s).andThen fun s =>
  (changeHostName sys cs.hostname s).andThen fun s =>
  changeRoot sys cs.rootLoc s

/-- The seven system calls of a complete bootstrap, in program order. -/
def bootPlan {K : Type} (sys : Sys K) (cs : configSettings) : List Syscall :=
  [ .mkdirAll (sys.filepathJoin cs.rootLoc (lit "/proc")) 0o755,
    .mount (lit "proc") (sys.filepathJoin cs.rootLoc (lit "/proc")) (lit "proc") 0 (lit ""),
    .mkdirAll (sys.filepathJoin cs.rootLoc (lit "/sys")) 0o755,
    .mount (lit "sysfs") (sys.filepathJoin cs.rootLoc (lit "/sys")) (lit "sysfs") 0 (lit ""),
    .sethostname cs.hostname,
    .chroot cs.rootLoc,
    .chdir (lit "/") ]

/-! ## Concrete scenarios -/

/-- An adapter that succeeds: it writes the code to `/tmp/job42.py`. -/
def okAdapter : CreateFile := fun code _ fs =>
  { sysCommand := lit "python3", fileLocation := lit "/tmp/job42.py", err := none,
    fs := fun p => if p = lit "/tmp/job42.py" then some ⟨code, none, true⟩ else fs p }

/-- An adapter that fails: it writes the code to `/tmp/job42.c`, the compiler rejects it,
and the adapter reports the file location with its error. -/
def failingAdapter : CreateFile := fun code _ fs =>
  { sysCommand := [], fileLocation := lit "/tmp/job42.c", err := some (lit "syntax error"),
    fs := fun p => if p = lit "/tmp/job42.c" then some ⟨code, none, true⟩ else fs p }

/-- A host on which the spawned process behaves as `o` says. -/
def demoEnv (o : FS → ProcessOutcome) : Env :=
  { fillRestOfFileSettings := fun _ s => s.getD ⟨lit "job42", []⟩
    getFileCreationFunction := fun l =>
      if l = lit "python" then some okAdapter
      else if l = lit "c" then some failingAdapter
      else none
    getuid := 1000
    getgid := 1000
    cmdRun := fun _ _ _ fs => o fs }

/-- The sandboxed run leaves a diagnostic log file for the name `job42`. -/
def withSandboxLog (fs : FS) : FS :=
  fun p => if p = loggerFileLoc (lit "job42") then some ⟨lit "sandbox ready", none, true⟩ else fs p

/-- The process is killed at the deadline, after writing to both streams. -/
def timedOut (fs : FS) : ProcessOutcome :=
  { deadlineExceeded := true, err := some (lit "signal: killed"), stdOut := lit "par",
    stdErr := lit "Traceback", fs := withSandboxLog fs }

/-- The process prints `hello` and exits 0. -/
def saysHello (fs : FS) : ProcessOutcome :=
  { deadlineExceeded := false, err := none, stdOut := lit "hello", stdErr := [],
    fs := withSandboxLog fs }

/-- The process prints `hello` and exits 0, and does not touch the disk. -/
def saysHelloQuietly (fs : FS) : ProcessOutcome :=
  { deadlineExceeded := false, err := none, stdOut := lit "hello", stdErr := [], fs := fs }

/-- The process exits with status 1, having written to both streams. -/
def exitsOne (fs : FS) : ProcessOutcome :=
  { deadlineExceeded := false, err := some (lit "exit status 1"), stdOut := lit "out",
    stdErr := lit "2021/01/02 03:04:05 oops", fs := withSandboxLog fs }

/-- The process exits 0 after writing four bytes to stderr. -/
def shortStderr (fs : FS) : ProcessOutcome :=
  { deadlineExceeded := false, err := none, stdOut := lit "out", stdErr := lit "boom",
    fs := withSandboxLog fs }

/-- The process exits 0 after writing a time-stamped line to stderr. -/
def stampedStderr (fs : FS) : ProcessOutcome :=
  { deadlineExceeded := false, err := none, stdOut := lit "out",
    stdErr := lit "2021/01/02 03:04:05 division by zero", fs := withSandboxLog fs }

/-- A request for a Python program, with `nil` settings. -/
def pyState : executableState :=
  { code := lit "print(1)", lang := lit "python", settings := none, createFile := okAdapter }

/-- An adapter that succeeds and whose artifact `/tmp/job42.py` cannot be removed
afterwards (`os.Remove` fails on it). -/
def stickyAdapter : CreateFile := fun code _ fs =>
  { sysCommand := lit "python3", fileLocation := lit "/tmp/job42.py", err := none,
    fs := fun p => if p = lit "/tmp/job42.py" then some ⟨code, none, false⟩ else fs p }

/-- A request for a Python program whose artifact cannot be removed. -/
def stickyState : executableState :=
  { code := lit "print(1)", lang := lit "python", settings := none,
    createFile := stickyAdapter }

/-- A request for a C program that does not compile. -/
def cState : executableState :=
  { code := lit "int main(", lang := lit "c", settings := none, createFile := failingAdapter }

/-- A host with an empty disk and no history. -/
def emptyWorld : World :=
  { fs := fun _ => none, events := [] }

/-- A host on which a logger file for `job42` is already lying around. -/
def staleLogWorld : World :=
  { fs := fun p => if p = loggerFileLoc (lit "job42") then some ⟨lit "secret", none, true⟩ else none,
    events := [] }

/-- An operating system without state on which every call succeeds, except that the
mount point for `sysfs` cannot be created. -/
def noSysDir : Sys Unit :=
  { exec := fun c k =>
      match c with
      | .mkdirAll p _ => (if p = lit "/jail/sys" then some (lit "read-only file system") else none, k)
      | _ => (none, k)
    filepathJoin := fun a b => a ++ b }

/-- An operating system without state on which `sysfs` cannot be mounted. -/
def noSysMount : Sys Unit :=
  { exec := fun c k =>
      match c with
      | .mount src _ _ _ _ => (if src = lit "sysfs" then some (lit "operation not permitted") else none, k)
      | _ => (none, k)
    filepathJoin := fun a b => a ++ b }

/-- The configuration of the demo container. -/
def demoConfig : configSettings :=
  { hostname := lit "runner", rootLoc := lit "/jail" }

/-! ## Helper lemmas -/

theorem emit_fs (w : World) (e : Event) : (w.emit e).fs = w.fs := rfl

theorem osRemove_fs (path : GoString) (w : World) : (osRemove path w).fs = w.fs.remove path := rfl

theorem checkLoggerFile_fs (pre : GoString) (w : World) :
    (checkLoggerFile pre w).fs = w.fs.remove (loggerFileLoc pre) := by
  unfold checkLoggerFile
  simp only [emit_fs]
  generalize ioutilReadFile w.fs (loggerFileLoc pre) = r
  rcases r with ⟨_ | out, _ | e⟩ <;> simp only [osRemove_fs, emit_fs] <;> split <;> rfl

theorem FS.remove_self (fs : FS) (p : GoString) (h : fs.canRemove p = true) :
    (fs.remove p).present p = false := by
  unfold FS.canRemove at h
  unfold FS.remove FS.present
  cases hp : fs p with
  | none => simp [hp]
  | some n => simp [hp] at h ⊢; simp [h]

theorem FS.remove_absent (fs : FS) (p q : GoString) (h : fs.present q = false) :
    (fs.remove p).present q = false := by
  unfold FS.present at h ⊢
  unfold FS.remove
  cases hp : fs p with
  | none => simpa using h
  | some n =>
    by_cases hr : n.removable = true
    · by_cases hq : q = p <;> simp [hr, hq] 
      simpa using h
    · simp [hr]; simpa using h

theorem FS.remove_canRemove (fs : FS) (p q : GoString) (h : fs.canRemove q = true) :
    (fs.remove p).canRemove q = true := by
  unfold FS.canRemove at h ⊢
  unfold FS.remove
  cases hp : fs p with
  | none => simpa using h
  | some n =>
    by_cases hr : n.removable = true
    · by_cases hq : q = p <;> simp [hr, hq]
      simpa using h
    · simp [hr]; simpa using h

/-- After the adapter has succeeded, every way out of `Run` leaves the file system the
process left, minus the logger file, minus the artifact. -/
theorem Run_fs_of_adapter_ok (env : Env) (state : executableState) (w : World)
    (ha : (adapterResult env state w).err = none) :
    (Run env state w).world.fs =
      (((processOutcome env state w).fs.remove
        (loggerFileLoc (resolvedSettings env state).FileNamePrefix)).remove
          (adapterResult env state w).fileLocation) := by
  unfold adapterResult resolvedSettings at ha
  unfold Run 
  simp only [emit_fs, ha]
  split <;> [skip; split <;> [skip; split <;> [split; skip]]] <;>
    simp [osRemove_fs, emit_fs, checkLoggerFile_fs, processOutcome, adapterResult, resolvedSettings]

/-- The result of `Run` is a function of what the adapter answered and what was observed
of the process. -/
theorem Run_completion_eq (env : Env) (state : executableState) (w : World) :
    (Run env state w).completion =
      match (adapterResult env state w).err with
      | some e => .returned [] (some (.CompilationError e))
      | none =>
        if (processOutcome env state w).deadlineExceeded = true then
          .returned (processOutcome env state w).stdOut (some (.TimeLimitExceededError 15))
        else
          match (processOutcome env state w).err with
          | some e => .returned [] (some (.RuntimeError e))
          | none =>
            if (processOutcome env state w).stdErr = [] then
              .returned (processOutcome env state w).stdOut none
            else if (processOutcome env state w).stdErr.length < 20 then
              .sliceOutOfRange 20 (processOutcome env state w).stdErr.length
            else
              .returned (processOutcome env state w).stdOut
                (some (.RuntimeError ((processOutcome env state w).stdErr.drop 20))) := by
  unfold processOutcome adapterResult resolvedSettings
  simp only [Run, emit_fs]
  generalize state.createFile state.code (env.fillRestOfFileSettings state.lang
    state.settings) w.fs = a
  rcases ha : a.err with _ | e
  · simp only []
    generalize env.cmdRun (lit "executable_container")
      [a.sysCommand, a.fileLocation, (env.fillRestOfFileSettings state.lang
        state.settings).FileNamePrefix] (sysProcAttr env) a.fs = o
    rcases hd : o.deadlineExceeded
    · rcases he : o.err with _ | e
      · by_cases hs : o.stdErr = []
        · simp [hs]
        · by_cases hl : o.stdErr.length < 20 <;> simp [hs, hl]
      · simp
    · simp
  · simp

/-- The harvester prints the content of a readable logger file. -/
theorem checkLoggerFile_logs (pre : GoString) (w : World) (n : Node)
    (hn : w.fs (loggerFileLoc pre) = some n) (hr : n.readErr = none) :
    Event.logPrintln n.content ∈ (checkLoggerFile pre w).events := by
  simp [checkLoggerFile, ioutilReadFile, emit_fs, hn, hr, osRemove, World.emit]

/-- What the harvester printed is in the host log when `Run` ends. -/
theorem Run_logs_harvest (env : Env) (state : executableState) (w : World) (n : Node)
    (ha : (adapterResult env state w).err = none)
    (hn : (processOutcome env state w).fs
      (loggerFileLoc (resolvedSettings env state).FileNamePrefix) = some n)
    (hr : n.readErr = none) :
    Event.logPrintln n.content ∈ (Run env state w).world.events := by
  unfold processOutcome adapterResult resolvedSettings at *
  simp only [Run, emit_fs, ha]
  generalize hw : checkLoggerFile _ _ = w'
  have hmem : Event.logPrintln n.content ∈ w'.events := by
    rw [← hw]
    exact checkLoggerFile_logs _ _ n hn hr
  split <;> [skip; split <;> [skip; split <;> [split; skip]]] <;>
    simp [osRemove, World.emit, hmem]

/-! ## The classification of `Run` -/

/-- C1: when the adapter succeeded and the deadline was exceeded, `Run` returns the stdout
captured so far with `TimeLimitExceededError{maxTime: 15}`, whatever the error of the
process and whatever is in the stderr buffer. -/
theorem Run_timeout_has_priority (env : Env) (state : executableState) (w : World)
    (ha : (adapterResult env state w).err = none)
    (hd : (processOutcome env state w).deadlineExceeded = true) :
    (Run env state w).completion =
      .returned (processOutcome env state w).stdOut (some (.TimeLimitExceededError 15)) := by
  unfold processOutcome adapterResult resolvedSettings at *
  simp [Run, emit_fs, ha, hd]

/-- Witness of C1: a process killed at the deadline with a non-nil error and a non-empty
stderr; the result is the partial stdout and the time limit error. -/
theorem Run_timeout_has_priority_witness :
    (processOutcome (demoEnv timedOut) pyState emptyWorld).err ≠ none
    ∧ (processOutcome (demoEnv timedOut) pyState emptyWorld).stdErr ≠ []
    ∧ (Run (demoEnv timedOut) pyState emptyWorld).completion =
        .returned (lit "par") (some (.TimeLimitExceededError 15)) :=
  ⟨by decide, by decide, Run_timeout_has_priority (demoEnv timedOut) pyState emptyWorld rfl rfl⟩

/-- C2 at the failing input: with the deadline kept, no process error and the four bytes
`boom` on stderr, `Run` does not return; the slice `[20:]` is out of range and the Go
runtime aborts the call. -/
theorem Run_short_stderr_aborts :
    (adapterResult (demoEnv shortStderr) pyState emptyWorld).err = none
    ∧ (processOutcome (demoEnv shortStderr) pyState emptyWorld).deadlineExceeded = false
    ∧ (processOutcome (demoEnv shortStderr) pyState emptyWorld).err = none
    ∧ (processOutcome (demoEnv shortStderr) pyState emptyWorld).stdErr = lit "boom"
    ∧ (Run (demoEnv shortStderr) pyState emptyWorld).completion = .sliceOutOfRange 20 4 := by
  decide

/-- With the deadline kept, no process failure and a non-empty stderr: if stderr has at
least 20 bytes, `Run` returns the captured stdout with a `RuntimeError` whose message is
stderr without its first 20 bytes; if it has fewer, the slice `[20:]` aborts the call. -/
theorem Run_stderr_error (env : Env) (state : executableState) (w : World)
    (ha : (adapterResult env state w).err = none)
    (hd : (processOutcome env state w).deadlineExceeded = false)
    (he : (processOutcome env state w).err = none)
    (hs : (processOutcome env state w).stdErr ≠ []) :
    (20 ≤ (processOutcome env state w).stdErr.length →
      (Run env state w).completion =
        .returned (processOutcome env state w).stdOut
          (some (.RuntimeError ((processOutcome env state w).stdErr.drop 20))))
    ∧ ((processOutcome env state w).stdErr.length < 20 →
      (Run env state w).completion =
        .sliceOutOfRange 20 (processOutcome env state w).stdErr.length) := by
  rw [Run_completion_eq]
  constructor
  · intro hl
    have hl20 : ¬ (processOutcome env state w).stdErr.length < 20 := by omega
    simp [ha, hd, he, hs, hl20]
  · intro hl
    simp [ha, hd, he, hs, hl]

/-- C5: when the deadline was kept and the process reported a failure, `Run` returns the
empty output with a `RuntimeError` carrying the failure text, whatever the two capture
buffers hold. -/
theorem Run_process_failure (env : Env) (state : executableState) (w : World) (e : GoString)
    (ha : (adapterResult env state w).err = none)
    (hd : (processOutcome env state w).deadlineExceeded = false)
    (he : (processOutcome env state w).err = some e) :
    (Run env state w).completion = .returned [] (some (.RuntimeError e)) := by
  unfold processOutcome adapterResult resolvedSettings at *
  simp [Run, emit_fs, ha, hd, he]

/-- Witness of C5: exit status 1 with text on both streams. -/
theorem Run_process_failure_witness :
    (processOutcome (demoEnv exitsOne) pyState emptyWorld).stdOut ≠ []
    ∧ (processOutcome (demoEnv exitsOne) pyState emptyWorld).stdErr ≠ []
    ∧ (Run (demoEnv exitsOne) pyState emptyWorld).completion =
        .returned [] (some (.RuntimeError (lit "exit status 1"))) :=
  ⟨by decide, by decide,
    Run_process_failure (demoEnv exitsOne) pyState emptyWorld (lit "exit status 1") rfl rfl rfl⟩

/-- C4: if the adapter returns an error, `Run` returns the empty output with a
`CompilationError` carrying the adapter's error text, and all it has done is call the
adapter once and print the error (no deadline, no process, no look at the logger file);
if the adapter returns no error, `Run` never returns a `CompilationError`. -/
theorem Run_compilation_error (env : Env) (state : executableState) (w : World) :
    (∀ e, (adapterResult env state w).err = some e →
      (Run env state w).completion = .returned [] (some (.CompilationError e))
      ∧ (Run env state w).world.events =
          w.events ++ [.adapterInvoked state.code (resolvedSettings env state), .logPrintln e])
    ∧ ((adapterResult env state w).err = none →
        ∀ out msg, (Run env state w).completion ≠ .returned out (some (.CompilationError msg))) := by
  unfold adapterResult resolvedSettings
  constructor
  · intro e he
    simp [Run, emit_fs, he, World.emit]
  · intro ha out msg
    simp only [Run, emit_fs, ha]
    split <;> [skip; split <;> [skip; split <;> [split; skip]]] <;> simp

/-- Witness of C4: the C program that does not compile. -/
theorem Run_compilation_error_witness :
    (Run (demoEnv saysHello) cState emptyWorld).completion =
        .returned [] (some (.CompilationError (lit "syntax error")))
    ∧ (Run (demoEnv saysHello) cState emptyWorld).world.events =
        [.adapterInvoked (lit "int main(") ⟨lit "job42", []⟩, .logPrintln (lit "syntax error")] :=
  (Run_compilation_error (demoEnv saysHello) cState emptyWorld).1 (lit "syntax error") rfl

/-! ## Clean-up -/

/-- C3 as stated fails: the adapter fails, reports the location `/tmp/job42.c` of a file
it left on disk (a file `os.Remove` would remove), and after `Run` has returned its
`CompilationError` that file is still there. -/
theorem Run_compile_failure_leaves_artifact :
    (adapterResult (demoEnv saysHello) cState emptyWorld).err = some (lit "syntax error")
    ∧ (adapterResult (demoEnv saysHello) cState emptyWorld).fileLocation = lit "/tmp/job42.c"
    ∧ (adapterResult (demoEnv saysHello) cState emptyWorld).fs.canRemove (lit "/tmp/job42.c") = true
    ∧ (Run (demoEnv saysHello) cState emptyWorld).completion =
        .returned [] (some (.CompilationError (lit "syntax error")))
    ∧ (Run (demoEnv saysHello) cState emptyWorld).world.fs.present (lit "/tmp/job42.c") = true := by
  decide

/-- C3 amended: once the adapter has succeeded, on every way out of `Run` (success,
process failure, stderr-derived error, timeout), if `os.Remove` can remove the artifact
and the logger file as the process left them, neither exists afterwards; when the adapter
fails, `Run` removes nothing and leaves the disk as the adapter left it. -/
theorem Run_cleans_up_after_adapter_success (env : Env) (state : executableState) (w : World) :
    ((adapterResult env state w).err = none →
      (processOutcome env state w).fs.canRemove (adapterResult env state w).fileLocation = true →
      (processOutcome env state w).fs.canRemove
        (loggerFileLoc (resolvedSettings env state).FileNamePrefix) = true →
      (Run env state w).world.fs.present (adapterResult env state w).fileLocation = false
      ∧ (Run env state w).world.fs.present
          (loggerFileLoc (resolvedSettings env state).FileNamePrefix) = false)
    ∧ ((adapterResult env state w).err ≠ none →
        (Run env state w).world.fs = (adapterResult env state w).fs) := by
  constructor
  · intro ha hr1 hr2
    rw [Run_fs_of_adapter_ok env state w ha]
    exact ⟨FS.remove_self _ _ (FS.remove_canRemove _ _ _ hr1),
      FS.remove_absent _ _ _ (FS.remove_self _ _ hr2)⟩
  · intro ha
    unfold adapterResult resolvedSettings at *
    cases he : (state.createFile state.code (env.fillRestOfFileSettings state.lang
      state.settings) w.fs).err with
    | none => exact absurd he ha
    | some e => simp [Run, emit_fs, he]

/-- Witness of C3 amended: a run killed at the deadline that left a logger file; the
artifact and the logger file are both gone afterwards. -/
theorem Run_cleans_up_after_adapter_success_witness :
    (processOutcome (demoEnv timedOut) pyState emptyWorld).fs.present (lit "/tmp/job42.py") = true
    ∧ (processOutcome (demoEnv timedOut) pyState emptyWorld).fs.present
        (loggerFileLoc (lit "job42")) = true
    ∧ (Run (demoEnv timedOut) pyState emptyWorld).world.fs.present (lit "/tmp/job42.py") = false
    ∧ (Run (demoEnv timedOut) pyState emptyWorld).world.fs.present
        (loggerFileLoc (lit "job42")) = false :=
  ⟨by decide, by decide,
    (Run_cleans_up_after_adapter_success (demoEnv timedOut) pyState emptyWorld).1 rfl
      (by decide) (by decide)⟩

/-- C6 as stated fails: the program prints `hello` and exits 0 with nothing on stderr,
`Run` returns `hello` and a `nil` error, and the artifact `/tmp/job42.py`, on which
`os.Remove` fails, is still on disk afterwards (the error of `os.Remove` is dropped). -/
theorem Run_success_leaves_unremovable_artifact :
    (adapterResult (demoEnv saysHello) stickyState emptyWorld).err = none
    ∧ (adapterResult (demoEnv saysHello) stickyState emptyWorld).fileLocation =
        lit "/tmp/job42.py"
    ∧ (processOutcome (demoEnv saysHello) stickyState emptyWorld).deadlineExceeded = false
    ∧ (processOutcome (demoEnv saysHello) stickyState emptyWorld).err = none
    ∧ (processOutcome (demoEnv saysHello) stickyState emptyWorld).stdErr = []
    ∧ (Run (demoEnv saysHello) stickyState emptyWorld).completion =
        .returned (lit "hello") none
    ∧ (Run (demoEnv saysHello) stickyState emptyWorld).world.fs.present
        (lit "/tmp/job42.py") = true := by
  decide

/-- C6 amended: when the adapter succeeds, the deadline is kept, the process reports no
failure and stderr is empty, `Run` returns exactly the captured stdout and a `nil` error,
and if `os.Remove` can remove the artifact and the logger file as the process left them,
neither remains afterwards; conversely a `nil` error is returned only in this case, with
the captured stdout as output. -/
theorem Run_success (env : Env) (state : executableState) (w : World) :
    ((adapterResult env state w).err = none →
      (processOutcome env state w).deadlineExceeded = false →
      (processOutcome env state w).err = none →
      (processOutcome env state w).stdErr = [] →
      (processOutcome env state w).fs.canRemove (adapterResult env state w).fileLocation = true →
      (processOutcome env state w).fs.canRemove
        (loggerFileLoc (resolvedSettings env state).FileNamePrefix) = true →
      (Run env state w).completion = .returned (processOutcome env state w).stdOut none
      ∧ (Run env state w).world.fs.present (adapterResult env state w).fileLocation = false
      ∧ (Run env state w).world.fs.present
          (loggerFileLoc (resolvedSettings env state).FileNamePrefix) = false)
    ∧ (∀ out, (Run env state w).completion = .returned out none →
        (adapterResult env state w).err = none
        ∧ (processOutcome env state w).deadlineExceeded = false
        ∧ (processOutcome env state w).err = none
        ∧ (processOutcome env state w).stdErr = []
        ∧ out = (processOutcome env state w).stdOut) := by
  constructor
  · intro ha hd he hs hr1 hr2
    refine ⟨?_, ?_⟩
    · unfold processOutcome adapterResult resolvedSettings at *
      simp [Run, emit_fs, ha, hd, he, hs]
    · rw [Run_fs_of_adapter_ok env state w ha]
      exact ⟨FS.remove_self _ _ (FS.remove_canRemove _ _ _ hr1),
        FS.remove_absent _ _ _ (FS.remove_self _ _ hr2)⟩
  · intro out
    rw [Run_completion_eq]
    intro h
    rcases ha : (adapterResult env state w).err with _ | e
    · rcases hd : (processOutcome env state w).deadlineExceeded
      · rcases he : (processOutcome env state w).err with _ | e
        · by_cases hs : (processOutcome env state w).stdErr = []
          · simp [ha, hd, he, hs] at h
            simp [hs, h]
          · by_cases hl : (processOutcome env state w).stdErr.length < 20 <;>
              simp [ha, hd, he, hs, hl] at h
        · simp [ha, hd, he] at h
      · simp [ha, hd] at h
    · simp [ha] at h

/-- Witness of C6 amended: the program that prints `hello`. -/
theorem Run_success_witness :
    (Run (demoEnv saysHello) pyState emptyWorld).completion = .returned (lit "hello") none
    ∧ (Run (demoEnv saysHello) pyState emptyWorld).world.fs.present (lit "/tmp/job42.py") = false
    ∧ (Run (demoEnv saysHello) pyState emptyWorld).world.fs.present
        (loggerFileLoc (lit "job42")) = false :=
  (Run_success (demoEnv saysHello) pyState emptyWorld).1 rfl rfl rfl rfl (by decide) (by decide)

/-! ## The logger file is diagnostic only -/

/-- C7: two executions of `Run` that agree on the adapter's error and on what is observed of
the process (deadline, error, stdout, stderr) end in the same way, however the hosts, the
disks and the logger files differ; the content of a readable logger file is printed to
the host log. -/
theorem Run_ignores_logger_file (env₁ env₂ : Env) (state₁ state₂ : executableState)
    (w₁ w₂ : World)
    (ha : (adapterResult env₁ state₁ w₁).err = (adapterResult env₂ state₂ w₂).err)
    (hd : (processOutcome env₁ state₁ w₁).deadlineExceeded =
      (processOutcome env₂ state₂ w₂).deadlineExceeded)
    (he : (processOutcome env₁ state₁ w₁).err = (processOutcome env₂ state₂ w₂).err)
    (ho : (processOutcome env₁ state₁ w₁).stdOut = (processOutcome env₂ state₂ w₂).stdOut)
    (hs : (processOutcome env₁ state₁ w₁).stdErr = (processOutcome env₂ state₂ w₂).stdErr) :
    (Run env₁ state₁ w₁).completion = (Run env₂ state₂ w₂).completion
    ∧ ∀ n, (adapterResult env₁ state₁ w₁).err = none →
        (processOutcome env₁ state₁ w₁).fs
          (loggerFileLoc (resolvedSettings env₁ state₁).FileNamePrefix) = some n →
        n.readErr = none →
        Event.logPrintln n.content ∈ (Run env₁ state₁ w₁).world.events := by
  constructor
  · rw [Run_completion_eq, Run_completion_eq, ha, hd, he, ho, hs]
  · intro n hok hn hr
    exact Run_logs_harvest env₁ state₁ w₁ n hok hn hr

/-- Witness of C7: the same quiet `hello` run on an empty disk and on a disk with a stale
logger file holding `secret`; both return `hello` and no error, and the second prints
`secret` to the host log. -/
theorem Run_ignores_logger_file_witness :
    (Run (demoEnv saysHelloQuietly) pyState staleLogWorld).completion =
        (Run (demoEnv saysHelloQuietly) pyState emptyWorld).completion
    ∧ Event.logPrintln (lit "secret") ∈
        (Run (demoEnv saysHelloQuietly) pyState staleLogWorld).world.events :=
  ⟨(Run_ignores_logger_file (demoEnv saysHelloQuietly) (demoEnv saysHelloQuietly) pyState
      pyState staleLogWorld emptyWorld rfl rfl rfl rfl rfl).1,
    (Run_ignores_logger_file (demoEnv saysHelloQuietly) (demoEnv saysHelloQuietly) pyState
      pyState staleLogWorld emptyWorld rfl rfl rfl rfl rfl).2 ⟨lit "secret", none, true⟩ rfl
      (by decide) rfl⟩

/-! ## Output and error together -/

/-- C8 as stated fails: at the deadline `Run` returns the non-empty output `par` together
with a non-nil error. -/
theorem Run_returns_output_with_error :
    (Run (demoEnv timedOut) pyState emptyWorld).completion =
        .returned (lit "par") (some (.TimeLimitExceededError 15))
    ∧ lit "par" ≠ [] := by
  decide

/-- C8 amended: for every result `Run` returns, a `nil` error comes with the captured
stdout (the success output); a non-nil error is exactly one classified error, and it comes
with the empty output when it is a `CompilationError` or the `RuntimeError` of a process
failure, and with the captured stdout when it is the `TimeLimitExceededError` or the
`RuntimeError` derived from stderr. -/
theorem Run_result_shapes (env : Env) (state : executableState) (w : World)
    (out : GoString) (err : Option RunError)
    (h : (Run env state w).completion = .returned out err) :
    (err = none → out = (processOutcome env state w).stdOut)
    ∧ ∀ e, err = some e →
        (e = .TimeLimitExceededError 15 ∧ out = (processOutcome env state w).stdOut)
        ∨ (e = .RuntimeError ((processOutcome env state w).stdErr.drop 20)
            ∧ (processOutcome env state w).err = none
            ∧ out = (processOutcome env state w).stdOut)
        ∨ (e = .CompilationError ((adapterResult env state w).err.getD []) ∧ out = [])
        ∨ (e = .RuntimeError ((processOutcome env state w).err.getD [])
            ∧ (processOutcome env state w).err ≠ none ∧ out = []) := by
  rw [Run_completion_eq] at h
  rcases ha : (adapterResult env state w).err with _ | e
  · rcases hd : (processOutcome env state w).deadlineExceeded
    · rcases he : (processOutcome env state w).err with _ | e
      · by_cases hs : (processOutcome env state w).stdErr = []
        · simp [ha, hd, he, hs] at h
          simp [← h.2, h.1]
        · by_cases hl : (processOutcome env state w).stdErr.length < 20
          · simp [ha, hd, he, hs, hl] at h
          · simp [ha, hd, he, hs, hl] at h
            simp [← h.2, h.1]
      · simp [ha, hd, he] at h
        simp [← h.2, h.1]
    · simp [ha, hd] at h
      simp [← h.2, h.1]
  · simp [ha] at h
    simp [← h.2, h.1]

/-- Witness of C8 amended: a time-stamped line on stderr gives the captured stdout with the
stderr-derived error. -/
theorem Run_result_shapes_witness :
    (Run (demoEnv stampedStderr) pyState emptyWorld).completion =
      .returned (lit "out") (some (.RuntimeError (lit "division by zero")))
    ∧ ((some (RunError.RuntimeError (lit "division by zero")) = none →
        lit "out" = (processOutcome (demoEnv stampedStderr) pyState emptyWorld).stdOut)
      ∧ ∀ e, some (RunError.RuntimeError (lit "division by zero")) = some e →
        (e = .TimeLimitExceededError 15
          ∧ lit "out" = (processOutcome (demoEnv stampedStderr) pyState emptyWorld).stdOut)
        ∨ (e = .RuntimeError
              ((processOutcome (demoEnv stampedStderr) pyState emptyWorld).stdErr.drop 20)
            ∧ (processOutcome (demoEnv stampedStderr) pyState emptyWorld).err = none
            ∧ lit "out" = (processOutcome (demoEnv stampedStderr) pyState emptyWorld).stdOut)
        ∨ (e = .CompilationError
              ((adapterResult (demoEnv stampedStderr) pyState emptyWorld).err.getD [])
            ∧ lit "out" = [])
        ∨ (e = .RuntimeError
              ((processOutcome (demoEnv stampedStderr) pyState emptyWorld).err.getD [])
            ∧ (processOutcome (demoEnv stampedStderr) pyState emptyWorld).err ≠ none
            ∧ lit "out" = [])) :=
  ⟨by decide, Run_result_shapes (demoEnv stampedStderr) pyState emptyWorld (lit "out")
    (some (.RuntimeError (lit "division by zero"))) (by decide)⟩

/-! ## `NewExecutable` -/

/-- C9: `NewExecutable` fails exactly when no file-creation function is registered for the
language; then it returns no executable and `UnsupportedLanguageError` with the requested
language; otherwise it returns the executable holding the given code, language, settings
and the registered function, with a `nil` error; either way the host (disk and history
of actions) is as before. -/
theorem NewExecutable_spec (env : Env) (lang code : GoString) (settings : Option FileSettings)
    (w : World) :
    ((NewExecutable env lang code settings w).1.2 ≠ none ↔
      env.getFileCreationFunction lang = none)
    ∧ (env.getFileCreationFunction lang = none →
        (NewExecutable env lang code settings w).1 =
          (none, some (.UnsupportedLanguageError lang)))
    ∧ (∀ f, env.getFileCreationFunction lang = some f →
        (NewExecutable env lang code settings w).1 =
          (some { code := code, lang := lang, settings := settings, createFile := f }, none))
    ∧ (NewExecutable env lang code settings w).2 = w := by
  unfold NewExecutable
  cases h : env.getFileCreationFunction lang <;> simp

/-! ## The bootstrapper -/

/-- C10: for every behaviour of the operating system, the calls `setupInternalContainer`
makes are an initial segment of: create `<root>/proc`, mount `proc`, create `<root>/sys`,
mount `sysfs`, `sethostname`, `chroot`, `chdir "/"`.  A call other than the third (the
creation of the `sys` mount point) that fails is the last call made and the process exits
with status 1.  The function returns to its caller exactly when all seven calls were made
and none but possibly the third failed; when the process exits, the last call made is a
failed one and not the third.  If `chroot` was attempted, then the `proc` mount, the
`sysfs` mount and `sethostname` have succeeded. -/
theorem setupInternalContainer_fail_fast {K : Type} (sys : Sys K) (cs : configSettings) (k : K) :
    (setupInternalContainer sys cs (.init k)).state.trace.map Prod.fst <+: bootPlan sys cs
    ∧ (∀ i c e, (setupInternalContainer sys cs (.init k)).state.trace[i]? = some (c, some e) →
        i ≠ 2 →
        i + 1 = (setupInternalContainer sys cs (.init k)).state.trace.length
        ∧ (setupInternalContainer sys cs (.init k)).exitStatus = some 1)
    ∧ ((setupInternalContainer sys cs (.init k)).exitStatus = none ↔
        (setupInternalContainer sys cs (.init k)).state.trace.length = 7
        ∧ ∀ i c e, (setupInternalContainer sys cs (.init k)).state.trace[i]? = some (c, some e) →
            i = 2)
    ∧ (∀ status, (setupInternalContainer sys cs (.init k)).exitStatus = some status →
        status = 1
        ∧ (setupInternalContainer sys cs (.init k)).state.trace.length ≠ 3
        ∧ ∃ c e, (setupInternalContainer sys cs (.init k)).state.trace.getLast? = some (c, some e))
    ∧ (∀ r, (Syscall.chroot cs.rootLoc, r) ∈ (setupInternalContainer sys cs (.init k)).state.trace →
        (Syscall.mount (lit "proc") (sys.filepathJoin cs.rootLoc (lit "/proc")) (lit "proc") 0
            (lit ""), none) ∈ (setupInternalContainer sys cs (.init k)).state.trace
        ∧ (Syscall.mount (lit "sysfs") (sys.filepathJoin cs.rootLoc (lit "/sys")) (lit "sysfs") 0
            (lit ""), none) ∈ (setupInternalContainer sys cs (.init k)).state.trace
        ∧ (Syscall.sethostname cs.hostname, none) ∈
            (setupInternalContainer sys cs (.init k)).state.trace) := by
  simp only [setupInternalContainer, mountProc, mountSys, changeHostName, changeRoot, Sys.call,
    BootState.init, bootPlan]
  generalize sys.filepathJoin cs.rootLoc (lit "/proc") = pt
  generalize sys.filepathJoin cs.rootLoc (lit "/sys") = st
  generalize lit "proc" = sproc
  generalize lit "sysfs" = ssys
  generalize lit "" = sempty
  generalize lit "/" = sroot
  generalize cs.rootLoc = root
  generalize cs.hostname = host
  rcases sys.exec (.mkdirAll pt 0o755) k with ⟨e1, k1⟩
  cases e1 with
  | some x1 =>
    simp [must, Boot.andThen, Boot.state, Boot.exitStatus, List.prefix_cons_inj]
    intro i c e h
    rcases i with _ | _ | _ | _ | _ | _ | _ | i <;> simp at h ⊢
  | none =>
    simp only [must, Boot.andThen]
    rcases sys.exec (.mount sproc pt sproc 0 sempty) k1 with ⟨e2, k2⟩
    cases e2 with
    | some x2 =>
      simp [must, Boot.andThen, Boot.state, Boot.exitStatus, List.prefix_cons_inj]
      intro i c e h
      rcases i with _ | _ | _ | _ | _ | _ | _ | i <;> simp at h ⊢
    | none =>
      simp only [must, Boot.andThen]
      rcases sys.exec (.mkdirAll st 0o755) k2 with ⟨e3, k3⟩
      simp only []
      rcases sys.exec (.mount ssys st ssys 0 sempty) k3 with ⟨e4, k4⟩
      cases e4 with
      | some x4 =>
        simp [must, Boot.andThen, Boot.state, Boot.exitStatus, List.prefix_cons_inj]
        intro i c e h
        rcases i with _ | _ | _ | _ | _ | _ | _ | i <;> simp at h ⊢
      | none =>
        simp only [must, Boot.andThen]
        rcases sys.exec (.sethostname host) k4 with ⟨e5, k5⟩
        cases e5 with
        | some x5 =>
          simp [must, Boot.andThen, Boot.state, Boot.exitStatus, List.prefix_cons_inj]
          intro i c e h
          rcases i with _ | _ | _ | _ | _ | _ | _ | i <;> simp at h ⊢
        | none =>
          simp only [must, Boot.andThen]
          rcases sys.exec (.chroot root) k5 with ⟨e6, k6⟩
          cases e6 with
          | some x6 =>
            simp [must, Boot.andThen, Boot.state, Boot.exitStatus, List.prefix_cons_inj]
            intro i c e h
            rcases i with _ | _ | _ | _ | _ | _ | _ | i <;> simp at h ⊢
          | none =>
            simp only [must, Boot.andThen]
            rcases sys.exec (.chdir sroot) k6 with ⟨e7, k7⟩
            cases e7 with
            | some x7 =>
              simp [must, Boot.andThen, Boot.state, Boot.exitStatus, List.prefix_cons_inj]
              refine ⟨?_, 6, ⟨_, _, rfl⟩, by decide⟩
              intro i c e h
              rcases i with _ | _ | _ | _ | _ | _ | _ | i <;> simp at h ⊢
            | none =>
              simp [must, Boot.andThen, Boot.state, Boot.exitStatus, List.prefix_cons_inj]
              intro i c e h
              rcases i with _ | _ | _ | _ | _ | _ | _ | i <;> simp at h ⊢

/-- On a system where only the creation of `/jail/sys` fails, the bootstrap makes all seven
calls and returns to its caller. -/
theorem setupInternalContainer_tolerates_sys_mkdir :
    (setupInternalContainer noSysDir demoConfig (.init ())).exitStatus = none
    ∧ (setupInternalContainer noSysDir demoConfig (.init ())).state.trace.map Prod.fst =
        bootPlan noSysDir demoConfig
    ∧ (setupInternalContainer noSysDir demoConfig (.init ())).state.trace[2]? =
        some (.mkdirAll (lit "/jail/sys") 0o755, some (lit "read-only file system")) := by
  decide

/-- On a system where mounting `sysfs` fails, the bootstrap stops after four calls with exit
status 1: no `sethostname`, no `chroot`, no `chdir`. -/
theorem setupInternalContainer_stops_at_sys_mount :
    (setupInternalContainer noSysMount demoConfig (.init ())).exitStatus = some 1
    ∧ (setupInternalContainer noSysMount demoConfig (.init ())).state.trace.map Prod.fst =
        (bootPlan noSysMount demoConfig).take 4
    ∧ (setupInternalContainer noSysMount demoConfig (.init ())).state.log =
        [lit "operation not permitted"] := by
  decide

end CodeRunner
